import Mathlib

/-!
Shallow embedding of the Memberful OAuth2 server-side-app example
(two near-duplicate Node.js + Express servers, one under src/index.js and
one unnamed sibling). The servers expose three routes: a lobby page, an
OAuth-flow initiator that stores a freshly generated anti-replay token in
a process-wide variable and redirects to the provider, and a callback
handler that validates the token and then performs up to three sequential
outbound HTTP calls (token exchange, member-data fetch, refresh exchange).

Outbound HTTP is modelled by an oracle mapping each outbound request to
either a response payload or an error object; each handler returns its
HTTP response, the ordered trace of outbound requests it issued, and the
updated server state.
-/

namespace MemberfulOAuth

/-- JSON values as parsed by the HTTP client from provider responses.
Numbers are modelled as integers (the example only ever sees integral
fields such as expires_in). -/
inductive Json where
  | null : Json
  | bool (b : Bool) : Json
  | num (n : Int) : Json
  | str (s : String) : Json
  | arr (elems : List Json) : Json
  | obj (fields : List (String × Json)) : Json

/-- Models JSON.stringify on a parsed value (the example calls
JSON.stringify(data, null, 2); indentation whitespace is not observable
by any property here and is omitted). -/
def Json.stringify : Json → String
  | Json.null => "null"
  | Json.bool b => cond b "true" "false"
  | Json.num n => toString n
  | Json.str s => "\"" ++ s ++ "\""
  | Json.arr elems => "[" ++ String.intercalate "," (elems.attach.map (fun e => Json.stringify e.1)) ++ "]"
  | Json.obj fields => "\x7b" ++ String.intercalate "," (fields.attach.map (fun f =>
      match f with
      | ⟨(key, value), _⟩ => "\"" ++ key ++ "\":" ++ Json.stringify value)) ++ "\x7d"
decreasing_by
  · simp_wf
    have := List.sizeOf_lt_of_mem e.2
    omega
  · simp_wf
    rename_i hmem
    have := List.sizeOf_lt_of_mem hmem
    simp at this
    omega

/-- Models the JavaScript string conversion performed by template-literal
interpolation: undefined prints as "undefined", a string prints as
itself, arrays join their elements with commas (null printing empty
inside an array), objects print as [object Object]. -/
def Json.jsStringAux : Bool → Json → String
  | inArray, Json.null => cond inArray "" "null"
  | _, Json.bool b => cond b "true" "false"
  | _, Json.num n => toString n
  | _, Json.str s => s
  | _, Json.arr elems => String.intercalate "," (elems.attach.map (fun e => Json.jsStringAux true e.1))
  | _, Json.obj _ => "[object Object]"
termination_by _ j => sizeOf j
decreasing_by
  simp_wf
  have := List.sizeOf_lt_of_mem e.2
  omega

/-- JavaScript String() conversion of a parsed JSON value. -/
def Json.jsString (j : Json) : String := Json.jsStringAux false j

/-- A JavaScript value that may also be undefined (absent), as produced
by destructuring a field out of a response payload. -/
def jsTemplate : Option Json → String
  | Option.none => "undefined"
  | Option.some j => j.jsString

/-- Property access on a response payload: data.key is the value of the
first field named key when data is an object, and undefined otherwise. -/
def Json.getField : Json → String → Option Json
  | Json.obj fields, key => (fields.find? (fun f => f.1 == key)).map (fun f => f.2)
  | _, _ => Option.none

/-- Startup configuration of either server: route paths, provider base
URL and OAuth client credentials, all constants in the source. -/
structure Config where
  beginOAuthFlowURL : String
  callbackURL : String
  memberfulURL : String
  clientId : String
  clientSecret : String
deriving DecidableEq, Repr

/-- The default listening port (const defaultPort = 3000). -/
def defaultPort : Nat := 3000

/-- Configuration of src/index.js (the server-side-app example). -/
def ssaConfig : Config :=
  { beginOAuthFlowURL := "/login"
    callbackURL := "/callback"
    memberfulURL := "INSERT_YOUR_MEMBERFUL_URL_HERE"
    clientId := "INSERT_YOUR_OAUTH_IDENTIFIER_HERE"
    clientSecret := "INSERT_YOUR_OAUTH_SECRET_HERE" }

/-- Configuration of the unnamed sibling server (identical except for the
sign-in route path). -/
def apiConfig : Config :=
  { beginOAuthFlowURL := "/begin-oauth-flow"
    callbackURL := "/callback"
    memberfulURL := "INSERT_YOUR_MEMBERFUL_URL_HERE"
    clientId := "INSERT_YOUR_OAUTH_IDENTIFIER_HERE"
    clientSecret := "INSERT_YOUR_OAUTH_SECRET_HERE" }

/-- The alphabet used by generateRandomString (const possible = ...). -/
def possible : String :=
  "ABCDEFGHIJKLMNOPQRSTUVWXYZabcdefghijklmnopqrstuvwxyz0123456789"

/-- generateRandomString(length): appends, for i = 0 .. length-1, the
character of the alphabet at index Math.floor(Math.random() * 62).
The sequence of random draws is modelled by the argument rand, whose
value at i is the floored draw of iteration i (always in 0..61 because
Math.random() lies in [0, 1)). -/
def generateRandomString (rand : Nat → Fin 62) (length : Nat) : String :=
  String.mk ((List.range length).map (fun i => possible.data.getD (rand i).val 'A'))

/-- The whole mutable state of a server process: the single global
variable state, initialised to the empty string. -/
structure ServerState where
  state : String
deriving DecidableEq, Repr

/-- let state = '' at startup. -/
def initialState : ServerState := { state := "" }

inductive Method where
  | get : Method
  | post : Method
deriving DecidableEq, Repr

/-- One outbound HTTP request issued through the HTTP client: method,
URL, optional JSON body (an object literal whose field values may be
undefined), and optional Authorization header. -/
structure OutboundRequest where
  method : Method
  url : String
  body : Option (List (String × Option Json))
  authorization : Option String

/-- The error object caught in the callback handler catch block; data is
the field the handler reads off it (error.data), possibly undefined. -/
structure AxiosError where
  data : Option Json

/-- The provider (plus network) as an oracle: every outbound request
either yields a response payload (the data of a 2xx response) or throws
an error object. -/
def Provider : Type := OutboundRequest → Except AxiosError Json

/-- What a route handler hands to the response object: res.send of a
string, res.send of a JavaScript value that may be undefined (the
error.data branch), or res.redirect to a location. -/
inductive HttpResponse where
  | send (body : String) : HttpResponse
  | sendData (d : Option Json) : HttpResponse
  | redirect (location : String) : HttpResponse

/-- The lobby page HTML (identical in both servers); the sign-in route
path is interpolated into the link. -/
def lobbyHtml (cfg : Config) : String :=
  "\n  <html><head></head><body>\n    <h1>Memberful OAuth SSA Example - NodeJS + Express (No auth library)</h1>\n    <p><a href=\"" ++ cfg.beginOAuthFlowURL ++ "\">Begin OAuth Flow</a></p>\n  </body></html>\n  "

/-- The lobby route handler: sends the static page, touches nothing. -/
def handleLobby (cfg : Config) (st : ServerState) : HttpResponse × ServerState :=
  (HttpResponse.send (lobbyHtml cfg), st)

/-- The OAuth-flow initiator route handler: overwrites the global state
with a fresh 16-character random string and redirects to the provider
authorization endpoint. -/
def handleBeginOAuthFlow (cfg : Config) (rand : Nat → Fin 62) (_st : ServerState) :
    HttpResponse × ServerState :=
  let state := generateRandomString rand 16
  let responseType := "code"
  (HttpResponse.redirect
      (cfg.memberfulURL ++ "/oauth/?response_type=" ++ responseType ++ "&client_id=" ++
        cfg.clientId ++ "&state=" ++ state),
    { state := state })

/-- The query parameters the callback handler destructures from the
request URL; either may be absent. -/
structure CallbackQuery where
  code : Option String
  state : Option String
deriving DecidableEq, Repr

/-- The fixed GraphQL document requesting the member profile shape
(verbatim template-literal contents, braces escaped). -/
def memberQuery : String :=
  "\n        \x7b\n          currentMember \x7b\n            id\n            email\n            fullName\n            subscriptions \x7b\n              active\n              expiresAt\n              plan \x7b\n                id\n                name\n              \x7d\n            \x7d\n          \x7d\n        \x7d\n        "

/-- The authorization-code token exchange: POST {memberfulURL}/oauth/token
with the object literal built in the handler (the code query parameter
may be undefined). -/
def tokenExchangeRequest (cfg : Config) (code : Option String) : OutboundRequest :=
  { method := Method.post
    url := cfg.memberfulURL ++ "/oauth/token"
    body := Option.some
      [("grant_type", Option.some (Json.str "authorization_code")),
       ("code", code.map Json.str),
       ("client_id", Option.some (Json.str cfg.clientId)),
       ("client_secret", Option.some (Json.str cfg.clientSecret))]
    authorization := Option.none }

/-- The member-data fetch: GET {memberfulURL}/api/graphql/member?query=...
with an Authorization header interpolating the access_token field of the
token exchange response. -/
def memberDataRequest (cfg : Config) (accessToken : Option Json) : OutboundRequest :=
  { method := Method.get
    url := cfg.memberfulURL ++ "/api/graphql/member?query=" ++ memberQuery
    body := Option.none
    authorization := Option.some ("Bearer " ++ jsTemplate accessToken) }

/-- The refresh-token exchange: POST {memberfulURL}/oauth/token with the
refresh_token field of the token exchange response in the body. -/
def refreshTokenRequest (cfg : Config) (refreshToken : Option Json) : OutboundRequest :=
  { method := Method.post
    url := cfg.memberfulURL ++ "/oauth/token"
    body := Option.some
      [("grant_type", Option.some (Json.str "refresh_token")),
       ("refresh_token", refreshToken),
       ("client_id", Option.some (Json.str cfg.clientId)),
       ("client_secret", Option.some (Json.str cfg.clientSecret))]
    authorization := Option.none }

/-- The success page, interpolating the three stringified payloads. -/
def successHtml (accessTokenData memberData refreshData : Json) : String :=
  "\n      <html><head></head><body>\n        <h2>Results from our access token request:</h2>\n        <pre>" ++
    accessTokenData.stringify ++
    "</pre>\n        <h2>Results from our member data request:</h2>\n        <pre>" ++
    memberData.stringify ++
    "</pre>\n        <h2>Results from our refresh token request:</h2>\n        <pre>" ++
    refreshData.stringify ++
    "</pre>\n      </body></html>\n      "

/-- The callback route handler. Returns the response sent, the ordered
trace of outbound requests actually issued, and the server state after
the request. Mirrors the source: reject unless the returned state
strictly equals the stored one (undefined never equals a string), then
perform the three awaited calls in sequence inside a try/catch whose
catch sends error.data. -/
def handleCallback (cfg : Config) (provider : Provider) (st : ServerState)
    (q : CallbackQuery) : HttpResponse × List OutboundRequest × ServerState :=
  let returnedState := q.state
  if returnedState ≠ Option.some st.state then
    (HttpResponse.send "State doesn\x27t match", [], st)
  else
    let req1 := tokenExchangeRequest cfg q.code
    match provider req1 with
    | Except.error e => (HttpResponse.sendData e.data, [req1], st)
    | Except.ok accessTokenData =>
      let access_token := accessTokenData.getField "access_token"
      let refresh_token := accessTokenData.getField "refresh_token"
      let req2 := memberDataRequest cfg access_token
      match provider req2 with
      | Except.error e => (HttpResponse.sendData e.data, [req1, req2], st)
      | Except.ok memberData =>
        let req3 := refreshTokenRequest cfg refresh_token
        match provider req3 with
        | Except.error e => (HttpResponse.sendData e.data, [req1, req2, req3], st)
        | Except.ok refreshData =>
          (HttpResponse.send (successHtml accessTokenData memberData refreshData),
            [req1, req2, req3], st)

/-- Folding a sequence of initiator invocations (each with its own
random-draw sequence) over the server state. -/
def runLogins (cfg : Config) (rands : List (Nat → Fin 62)) (st : ServerState) : ServerState :=
  rands.foldl (fun s r => (handleBeginOAuthFlow cfg r s).2) st

/-- Looks up a field of an outbound request body (undefined when the
request has no body or no such field). -/
def reqBodyField (r : OutboundRequest) (key : String) : Option (Option Json) :=
  r.body.bind (fun b => (b.find? (fun f => f.1 == key)).map (fun f => f.2))

/-- A draw sequence that always picks index 0 of the alphabet. -/
def rand0 : Nat → Fin 62 := fun _ => 0

/-- A draw sequence that always picks index 1 of the alphabet. -/
def rand1 : Nat → Fin 62 := fun _ => 1

/-- A fixed error object thrown by a failing provider. -/
def failErr : AxiosError := { data := Option.some (Json.str "invalid_grant") }

/-- A provider on which every outbound call fails. -/
def failProvider : Provider := fun _ => Except.error failErr

-- Helper lemmas -------------------------------------------------------

theorem generateRandomString_length (rand : Nat → Fin 62) (n : Nat) :
    (generateRandomString rand n).length = n := by
  show ((List.range n).map _).length = n
  simp

theorem generateRandomString_mem_alphabet (rand : Nat → Fin 62) (n : Nat) :
    ∀ c ∈ (generateRandomString rand n).data, c ∈ possible.data := by
  intro c hc
  change c ∈ (List.range n).map _ at hc
  simp only [List.mem_map] at hc
  obtain ⟨i, _, hi⟩ := hc
  have hlt : (rand i).val < possible.data.length := by
    have := (rand i).isLt
    have hlen : possible.data.length = 62 := by decide
    omega
  rw [← hi, List.getD_eq_getElem _ _ hlt]
  exact List.getElem_mem hlt

theorem runLogins_append_single (cfg : Config) (pre : List (Nat → Fin 62))
    (r : Nat → Fin 62) (st : ServerState) :
    runLogins cfg (pre ++ [r]) st = { state := generateRandomString r 16 } := by
  simp [runLogins, List.foldl_append, handleBeginOAuthFlow]

-- Claim theorems ------------------------------------------------------

/-- C3: for every draw sequence and every length N, generateRandomString
returns a string of exactly N characters, each a character of the
62-character alphabet, and at length 0 the empty string. -/
theorem c3_generateRandomString_alphabet (rand : Nat → Fin 62) (n : Nat) :
    (generateRandomString rand n).length = n ∧
    (∀ c ∈ (generateRandomString rand n).data, c ∈ possible.data) ∧
    generateRandomString rand 0 = "" :=
  ⟨generateRandomString_length rand n, generateRandomString_mem_alphabet rand n, rfl⟩

/-- C3 witness at a concrete draw sequence and length. -/
theorem c3_generateRandomString_alphabet_witness :
    (generateRandomString rand0 3).length = 3 ∧ 'A' ∈ possible.data ∧
    generateRandomString rand0 0 = "" :=
  ⟨(c3_generateRandomString_alphabet rand0 3).1,
   (c3_generateRandomString_alphabet rand0 3).2.1 'A' (by decide),
   (c3_generateRandomString_alphabet rand0 3).2.2⟩

/-- C4: with a matching state, if the authorization-code token exchange
fails, the handler sends the error indication and the outbound trace is
exactly the one exchange request: neither the member-data fetch nor the
refresh exchange is attempted. -/
theorem c4_exchange_failure_aborts (cfg : Config) (provider : Provider)
    (st : ServerState) (q : CallbackQuery) (e : AxiosError)
    (hstate : q.state = Option.some st.state)
    (h1 : provider (tokenExchangeRequest cfg q.code) = Except.error e) :
    handleCallback cfg provider st q =
      (HttpResponse.sendData e.data, [tokenExchangeRequest cfg q.code], st) := by
  simp [handleCallback, hstate, h1]

/-- C4 witness: a provider failing on every call, a matching empty
state. -/
theorem c4_exchange_failure_aborts_witness :
    handleCallback ssaConfig failProvider initialState
        { code := Option.none, state := Option.some "" } =
      (HttpResponse.sendData failErr.data,
       [tokenExchangeRequest ssaConfig Option.none], initialState) :=
  c4_exchange_failure_aborts ssaConfig failProvider initialState
    { code := Option.none, state := Option.some "" } failErr rfl rfl

/-- C6: every initiator invocation stores a fresh 16-character token as
the expected value and redirects to exactly
memberfulURL/oauth/?response_type=code&client_id=clientId&state=token. -/
theorem c6_initiator_redirect (cfg : Config) (rand : Nat → Fin 62) (st : ServerState) :
    handleBeginOAuthFlow cfg rand st =
      (HttpResponse.redirect
          (cfg.memberfulURL ++ "/oauth/?response_type=code&client_id=" ++ cfg.clientId ++
            "&state=" ++ generateRandomString rand 16),
        { state := generateRandomString rand 16 }) ∧
    (generateRandomString rand 16).length = 16 := by
  refine ⟨?_, generateRandomString_length rand 16⟩
  show (HttpResponse.redirect
      (cfg.memberfulURL ++ "/oauth/?response_type=" ++ "code" ++ "&client_id=" ++
        cfg.clientId ++ "&state=" ++ generateRandomString rand 16), _) = _
  have harg : cfg.memberfulURL ++ "/oauth/?response_type=" ++ "code" ++ "&client_id=" ++
      cfg.clientId ++ "&state=" ++ generateRandomString rand 16 =
      cfg.memberfulURL ++ "/oauth/?response_type=code&client_id=" ++ cfg.clientId ++
      "&state=" ++ generateRandomString rand 16 := by
    simp only [String.append_assoc]
    rfl
  rw [harg]

/-- C7: the lobby route sends the same HTML from any two server states
and leaves the state unchanged. -/
theorem c7_lobby_idempotent (cfg : Config) (st st2 : ServerState) :
    (handleLobby cfg st).1 = (handleLobby cfg st2).1 ∧ (handleLobby cfg st).2 = st :=
  ⟨rfl, rfl⟩

/-- C1: after initiating a flow (which stores the fresh token), a
callback presenting any different state token is answered with the
mismatch notice and the outbound trace is empty: no token exchange,
profile fetch or refresh call is made. -/
theorem c1_mismatched_state_rejected (cfg : Config) (rand : Nat → Fin 62)
    (st0 : ServerState) (provider : Provider) (code : Option String) (t2 : String)
    (hne : t2 ≠ generateRandomString rand 16) :
    (handleBeginOAuthFlow cfg rand st0).2.state = generateRandomString rand 16 ∧
    handleCallback cfg provider (handleBeginOAuthFlow cfg rand st0).2
        { code := code, state := Option.some t2 } =
      (HttpResponse.send "State doesn\x27t match", [],
        (handleBeginOAuthFlow cfg rand st0).2) := by
  refine ⟨rfl, ?_⟩
  have hst : (handleBeginOAuthFlow cfg rand st0).2 =
      { state := generateRandomString rand 16 } := rfl
  rw [hst]
  simp [handleCallback, hne]

/-- C1 witness: the stored token is 16 letters A, the presented one is
B; the rejection makes no outbound call. -/
theorem c1_mismatched_state_rejected_witness :
    (handleBeginOAuthFlow ssaConfig rand0 initialState).2.state =
      generateRandomString rand0 16 ∧
    handleCallback ssaConfig failProvider (handleBeginOAuthFlow ssaConfig rand0 initialState).2
        { code := Option.none, state := Option.some "B" } =
      (HttpResponse.send "State doesn\x27t match", [],
        (handleBeginOAuthFlow ssaConfig rand0 initialState).2) :=
  c1_mismatched_state_rejected ssaConfig rand0 initialState failProvider Option.none "B"
    (by decide)

/-- C2: with a matching state and all three calls succeeding, the
handler issues exactly the token exchange, the member-data fetch and the
refresh exchange, in that order; the exchange posts grant_type
authorization_code, the fetch carries Authorization Bearer followed by
the access_token of the first response, the refresh posts grant_type
refresh_token with the refresh_token of the first response; and the
rendered HTML contains all three payloads. -/
theorem c2_success_three_calls (cfg : Config) (provider : Provider) (st : ServerState)
    (q : CallbackQuery) (a : String) (d1 d2 d3 : Json)
    (hstate : q.state = Option.some st.state)
    (h1 : provider (tokenExchangeRequest cfg q.code) = Except.ok d1)
    (ha : d1.getField "access_token" = Option.some (Json.str a))
    (h2 : provider (memberDataRequest cfg (d1.getField "access_token")) = Except.ok d2)
    (h3 : provider (refreshTokenRequest cfg (d1.getField "refresh_token")) = Except.ok d3) :
    handleCallback cfg provider st q =
      (HttpResponse.send (successHtml d1 d2 d3),
       [tokenExchangeRequest cfg q.code,
        memberDataRequest cfg (d1.getField "access_token"),
        refreshTokenRequest cfg (d1.getField "refresh_token")], st) ∧
    (tokenExchangeRequest cfg q.code).method = Method.post ∧
    (tokenExchangeRequest cfg q.code).url = cfg.memberfulURL ++ "/oauth/token" ∧
    reqBodyField (tokenExchangeRequest cfg q.code) "grant_type" =
      Option.some (Option.some (Json.str "authorization_code")) ∧
    (memberDataRequest cfg (d1.getField "access_token")).method = Method.get ∧
    (memberDataRequest cfg (d1.getField "access_token")).authorization =
      Option.some ("Bearer " ++ a) ∧
    (refreshTokenRequest cfg (d1.getField "refresh_token")).method = Method.post ∧
    (refreshTokenRequest cfg (d1.getField "refresh_token")).url =
      cfg.memberfulURL ++ "/oauth/token" ∧
    reqBodyField (refreshTokenRequest cfg (d1.getField "refresh_token")) "grant_type" =
      Option.some (Option.some (Json.str "refresh_token")) ∧
    reqBodyField (refreshTokenRequest cfg (d1.getField "refresh_token")) "refresh_token" =
      Option.some (d1.getField "refresh_token") ∧
    (∃ p1 p2 p3 p4, successHtml d1 d2 d3 =
      p1 ++ d1.stringify ++ p2 ++ d2.stringify ++ p3 ++ d3.stringify ++ p4) := by
  refine ⟨?_, rfl, rfl, by simp [reqBodyField, tokenExchangeRequest], rfl, ?_, rfl, rfl,
    by simp [reqBodyField, refreshTokenRequest], by simp [reqBodyField, refreshTokenRequest],
    ⟨_, _, _, _, rfl⟩⟩
  · simp [handleCallback, hstate, h1, h2, h3]
  · rw [ha]
    simp [memberDataRequest, jsTemplate, Json.jsString, Json.jsStringAux]

/-- A fixed token-pair payload for the mocked token exchange. -/
def c2d1 : Json := Json.obj [("access_token", Json.str "AT"), ("refresh_token", Json.str "RT")]

/-- A fixed member-data payload for the mocked profile fetch. -/
def c2d2 : Json := Json.obj [("currentMember", Json.null)]

/-- A fixed token-pair payload for the mocked refresh exchange. -/
def c2d3 : Json := Json.obj [("access_token", Json.str "AT2"), ("refresh_token", Json.str "RT2")]

/-- A mocked provider answering the profile fetch with c2d2, the refresh
exchange with c2d3 and any other token request with c2d1. -/
def okProvider : Provider := fun r =>
  match r.method, r.body with
  | Method.get, _ => Except.ok c2d2
  | Method.post, Option.some (_ :: (key, _) :: _) =>
    if key = "refresh_token" then Except.ok c2d3 else Except.ok c2d1
  | Method.post, _ => Except.ok c2d1

/-- C2 witness: a concrete matching callback against the mocked
provider. -/
theorem c2_success_three_calls_witness :
    handleCallback ssaConfig okProvider { state := "tok" }
        { code := Option.some "x", state := Option.some "tok" } =
      (HttpResponse.send (successHtml c2d1 c2d2 c2d3),
       [tokenExchangeRequest ssaConfig (Option.some "x"),
        memberDataRequest ssaConfig (c2d1.getField "access_token"),
        refreshTokenRequest ssaConfig (c2d1.getField "refresh_token")],
       { state := "tok" }) ∧
    (tokenExchangeRequest ssaConfig (Option.some "x")).method = Method.post ∧
    (tokenExchangeRequest ssaConfig (Option.some "x")).url =
      ssaConfig.memberfulURL ++ "/oauth/token" ∧
    reqBodyField (tokenExchangeRequest ssaConfig (Option.some "x")) "grant_type" =
      Option.some (Option.some (Json.str "authorization_code")) ∧
    (memberDataRequest ssaConfig (c2d1.getField "access_token")).method = Method.get ∧
    (memberDataRequest ssaConfig (c2d1.getField "access_token")).authorization =
      Option.some ("Bearer " ++ "AT") ∧
    (refreshTokenRequest ssaConfig (c2d1.getField "refresh_token")).method = Method.post ∧
    (refreshTokenRequest ssaConfig (c2d1.getField "refresh_token")).url =
      ssaConfig.memberfulURL ++ "/oauth/token" ∧
    reqBodyField (refreshTokenRequest ssaConfig (c2d1.getField "refresh_token")) "grant_type" =
      Option.some (Option.some (Json.str "refresh_token")) ∧
    reqBodyField (refreshTokenRequest ssaConfig (c2d1.getField "refresh_token")) "refresh_token" =
      Option.some (c2d1.getField "refresh_token") ∧
    (∃ p1 p2 p3 p4, successHtml c2d1 c2d2 c2d3 =
      p1 ++ c2d1.stringify ++ p2 ++ c2d2.stringify ++ p3 ++ c2d3.stringify ++ p4) :=
  c2_success_three_calls ssaConfig okProvider { state := "tok" }
    { code := Option.some "x", state := Option.some "tok" } "AT" c2d1 c2d2 c2d3
    rfl rfl rfl rfl rfl

/-- C5: with a matching state, whenever the last outbound call that was
issued failed, the response is res.send of that error object s data
field, verbatim: no structured error shape and no status-code mapping. -/
theorem c5_error_payload_verbatim (cfg : Config) (provider : Provider) (st : ServerState)
    (q : CallbackQuery) (r : OutboundRequest) (e : AxiosError)
    (hstate : q.state = Option.some st.state)
    (hlast : (handleCallback cfg provider st q).2.1.getLast? = Option.some r)
    (herr : provider r = Except.error e) :
    (handleCallback cfg provider st q).1 = HttpResponse.sendData e.data := by
  cases h1 : provider (tokenExchangeRequest cfg q.code) with
  | error e1 =>
    have hc : handleCallback cfg provider st q =
        (HttpResponse.sendData e1.data, [tokenExchangeRequest cfg q.code], st) := by
      simp [handleCallback, hstate, h1]
    rw [hc] at hlast ⊢
    simp at hlast
    rw [← hlast] at herr
    rw [h1] at herr
    cases herr
    rfl
  | ok d1 =>
    cases h2 : provider (memberDataRequest cfg (d1.getField "access_token")) with
    | error e2 =>
      have hc : handleCallback cfg provider st q =
          (HttpResponse.sendData e2.data,
           [tokenExchangeRequest cfg q.code,
            memberDataRequest cfg (d1.getField "access_token")], st) := by
        simp [handleCallback, hstate, h1, h2]
      rw [hc] at hlast ⊢
      simp at hlast
      rw [← hlast] at herr
      rw [h2] at herr
      cases herr
      rfl
    | ok d2 =>
      cases h3 : provider (refreshTokenRequest cfg (d1.getField "refresh_token")) with
      | error e3 =>
        have hc : handleCallback cfg provider st q =
            (HttpResponse.sendData e3.data,
             [tokenExchangeRequest cfg q.code,
              memberDataRequest cfg (d1.getField "access_token"),
              refreshTokenRequest cfg (d1.getField "refresh_token")], st) := by
          simp [handleCallback, hstate, h1, h2, h3]
        rw [hc] at hlast ⊢
        simp at hlast
        rw [← hlast] at herr
        rw [h3] at herr
        cases herr
        rfl
      | ok d3 =>
        have hc : handleCallback cfg provider st q =
            (HttpResponse.send (successHtml d1 d2 d3),
             [tokenExchangeRequest cfg q.code,
              memberDataRequest cfg (d1.getField "access_token"),
              refreshTokenRequest cfg (d1.getField "refresh_token")], st) := by
          simp [handleCallback, hstate, h1, h2, h3]
        rw [hc] at hlast
        simp at hlast
        rw [← hlast] at herr
        rw [h3] at herr
        cases herr

/-- C5 witness: the failing token exchange surfaces the error object s
data field as the response. -/
theorem c5_error_payload_verbatim_witness :
    (handleCallback ssaConfig failProvider initialState
        { code := Option.none, state := Option.some "" }).1 =
      HttpResponse.sendData failErr.data :=
  c5_error_payload_verbatim ssaConfig failProvider initialState
    { code := Option.none, state := Option.some "" }
    (tokenExchangeRequest ssaConfig Option.none) failErr rfl rfl rfl

/-- C8: after any sequence of initiator invocations, the stored token is
the one generated by the last invocation; a callback presenting the
token of any earlier invocation (different from the last one) is
rejected with no outbound call. -/
theorem c8_only_latest_flow_completes (cfg : Config) (pre : List (Nat → Fin 62))
    (r rlast : Nat → Fin 62) (st0 : ServerState) (provider : Provider)
    (code : Option String) (hmem : r ∈ pre)
    (hne : generateRandomString r 16 ≠ generateRandomString rlast 16) :
    (runLogins cfg (pre ++ [rlast]) st0).state = generateRandomString rlast 16 ∧
    handleCallback cfg provider (runLogins cfg (pre ++ [rlast]) st0)
        { code := code, state := Option.some (generateRandomString r 16) } =
      (HttpResponse.send "State doesn\x27t match", [],
        runLogins cfg (pre ++ [rlast]) st0) := by
  have hlast := runLogins_append_single cfg pre rlast st0
  refine ⟨by rw [hlast], ?_⟩
  rw [hlast]
  simp [handleCallback, hne]

/-- C8 witness: two initiations; the first token no longer validates. -/
theorem c8_only_latest_flow_completes_witness :
    (runLogins ssaConfig ([rand0] ++ [rand1]) initialState).state =
      generateRandomString rand1 16 ∧
    handleCallback ssaConfig failProvider (runLogins ssaConfig ([rand0] ++ [rand1]) initialState)
        { code := Option.none, state := Option.some (generateRandomString rand0 16) } =
      (HttpResponse.send "State doesn\x27t match", [],
        runLogins ssaConfig ([rand0] ++ [rand1]) initialState) :=
  c8_only_latest_flow_completes ssaConfig [rand0] rand0 rand1 initialState failProvider
    Option.none (List.mem_singleton.mpr rfl) (by decide)

/-- C9: handling a callback never changes the stored token, so a second
callback presenting the same matching state passes validation again and
proceeds to the token exchange (nonempty outbound trace). -/
theorem c9_token_not_single_use (cfg : Config) (provider : Provider) (st : ServerState)
    (q : CallbackQuery) :
    (handleCallback cfg provider st q).2.2 = st ∧
    (q.state = Option.some st.state →
      (handleCallback cfg provider (handleCallback cfg provider st q).2.2 q).2.1 ≠ []) := by
  have hinv : (handleCallback cfg provider st q).2.2 = st := by
    unfold handleCallback
    dsimp only
    split
    · rfl
    · split
      · rfl
      · split
        · rfl
        · split <;> rfl
  refine ⟨hinv, fun h => ?_⟩
  rw [hinv]
  unfold handleCallback
  dsimp only
  rw [if_neg (by simp [h])]
  split
  · simp
  · split
    · simp
    · split <;> simp

/-- C9 witness: the state survives a failed callback and the repeat
callback again reaches the token exchange. -/
theorem c9_token_not_single_use_witness :
    (handleCallback ssaConfig failProvider initialState
        { code := Option.none, state := Option.some "" }).2.2 = initialState ∧
    (handleCallback ssaConfig failProvider
        (handleCallback ssaConfig failProvider initialState
          { code := Option.none, state := Option.some "" }).2.2
        { code := Option.none, state := Option.some "" }).2.1 ≠ [] :=
  ⟨(c9_token_not_single_use ssaConfig failProvider initialState
      { code := Option.none, state := Option.some "" }).1,
   (c9_token_not_single_use ssaConfig failProvider initialState
      { code := Option.none, state := Option.some "" }).2 rfl⟩

/-- C10: before any initiation the stored token is the empty string, so
a callback presenting an empty state parameter passes the check and
proceeds to the token exchange, while a callback with the state
parameter absent is rejected. -/
theorem c10_initial_empty_state_accepted (cfg : Config) (provider : Provider)
    (code : Option String) :
    initialState.state = "" ∧
    (∃ rest, (handleCallback cfg provider initialState
        { code := code, state := Option.some "" }).2.1 =
      tokenExchangeRequest cfg code :: rest) ∧
    handleCallback cfg provider initialState { code := code, state := Option.none } =
      (HttpResponse.send "State doesn\x27t match", [], initialState) := by
  refine ⟨rfl, ?_, by simp [handleCallback]⟩
  cases h1 : provider (tokenExchangeRequest cfg code) with
  | error e => exact ⟨[], by simp [handleCallback, initialState, h1]⟩
  | ok d1 =>
    cases h2 : provider (memberDataRequest cfg (d1.getField "access_token")) with
    | error e =>
      exact ⟨[memberDataRequest cfg (d1.getField "access_token")],
        by simp [handleCallback, initialState, h1, h2]⟩
    | ok d2 =>
      cases h3 : provider (refreshTokenRequest cfg (d1.getField "refresh_token")) with
      | error e =>
        exact ⟨[memberDataRequest cfg (d1.getField "access_token"),
          refreshTokenRequest cfg (d1.getField "refresh_token")],
          by simp [handleCallback, initialState, h1, h2, h3]⟩
      | ok d3 =>
        exact ⟨[memberDataRequest cfg (d1.getField "access_token"),
          refreshTokenRequest cfg (d1.getField "refresh_token")],
          by simp [handleCallback, initialState, h1, h2, h3]⟩

end MemberfulOAuth
